import Mathlib

/-!
Shallow embedding of the `readlock` crate (blocking backend, `src/lib.rs`),
together with an operational model of handle lifecycles used to verify the
exclusivity invariant of `Shared`.

The backing allocation `Arc<RwLock<T>>` is modelled by `ArcCell`: the stored
value, the strong and weak reference counts observed at the allocation, and
the poison flag of the `RwLock`. Handle types `Shared`, `SharedReadLock` and
`WeakReadLock` each wrap such a cell, mirroring the newtype wrappers of the
source. Panics of the Rust code are modelled by explicit `panicked`
constructors of the result types.
-/

namespace Readlock

/-- Model of the backing allocation `Arc<RwLock<T>>`: the guarded value, the
strong and weak counts of the `Arc`, and the poison flag of the `RwLock`. -/
structure ArcCell (α : Type) where
  value : α
  strong : Nat
  weak : Nat
  poisoned : Bool
deriving DecidableEq, Repr

/-- Source `Shared<T>`: the exclusive-writer handle, a newtype over the cell. -/
structure Shared (α : Type) where
  cell : ArcCell α
deriving DecidableEq, Repr

/-- Source `SharedReadLock<T>`: a read-only handle, a newtype over the cell. -/
structure SharedReadLock (α : Type) where
  cell : ArcCell α
deriving DecidableEq, Repr

/-- Source `WeakReadLock<T>`: a weak handle, a newtype over the cell (the cell's
`strong` field is the strong count still alive; `0` means the inner value has
already been dropped). -/
structure WeakReadLock (α : Type) where
  cell : ArcCell α
deriving DecidableEq, Repr

/-- Result of `Shared::unwrap`: `Ok(T)`, `Err(Shared<T>)`, or a panic
(from `rwlock.into_inner().unwrap()` on a poisoned lock). -/
inductive UnwrapResult (α : Type) where
  | ok (value : α)
  | err (original : Shared α)
  | panicked
deriving DecidableEq, Repr

/-- Result of `Shared::get`: a reference to the inner value, or a panic. -/
inductive GetResult (α : Type) where
  | ok (value : α)
  | panicked
deriving DecidableEq, Repr

/-- Result of a lock acquisition (`Shared::lock` / `SharedReadLock::lock`):
a guard giving access to the inner value, or a panic on poisoning. -/
inductive LockAcqResult (α : Type) where
  | guard (value : α)
  | panicked
deriving DecidableEq, Repr

variable {α : Type}

/-- Source `Shared::new(data)`: `Self(Arc::new(RwLock::new(data)))` — a fresh
allocation has strong count 1, weak count 0 and an unpoisoned lock. -/
def Shared.new (data : α) : Shared α :=
  ⟨⟨data, 1, 0, false⟩⟩

/-- Source `Shared::unwrap(this)`: `Arc::try_unwrap(this.0)` succeeds exactly when
the strong count is 1 (weak references do not matter); on success,
`rwlock.into_inner().unwrap()` panics when the lock is poisoned; on failure
the same `Shared` is returned in `Err`. -/
def Shared.unwrap (this : Shared α) : UnwrapResult α :=
  if this.cell.strong = 1 then
    if this.cell.poisoned then .panicked else .ok this.cell.value
  else
    .err this

/-- Source `Shared::try_get(this)`: `this.0.read()` yields `Ok(guard)` when the lock
is not poisoned and `Err(poison_err)` when it is; both arms hand back a
(valid) reference to the inner value, the poisoned one wrapped in the error
arm (`PoisonError::new(r)`). -/
def Shared.try_get (this : Shared α) : Except α α :=
  if this.cell.poisoned then .error this.cell.value else .ok this.cell.value

/-- Source `Shared::get(this)`: `Self::try_get(this).unwrap()` — panics exactly when
`try_get` returns the poisoned error. -/
def Shared.get (this : Shared α) : GetResult α :=
  match Shared.try_get this with
  | .ok v => .ok v
  | .error _ => .panicked

/-- Source `Shared::lock(this)`: `SharedWriteGuard(this.0.write().unwrap())` —
panics exactly when the lock is poisoned. -/
def Shared.lock (this : Shared α) : LockAcqResult α :=
  if this.cell.poisoned then .panicked else .guard this.cell.value

/-- Source `Shared::get_read_lock(this)`: `SharedReadLock(this.0.clone())` — cloning
the `Arc` increments the strong count. -/
def Shared.get_read_lock (this : Shared α) : SharedReadLock α :=
  ⟨{ this.cell with strong := this.cell.strong + 1 }⟩

/-- Source `Shared::try_from_inner(rwlock)`: `Ok(Self(rwlock))` when
`Arc::strong_count == 1 && Arc::weak_count == 0`, else `Err(rwlock)`. -/
def Shared.try_from_inner (rwlock : ArcCell α) : Except (ArcCell α) (Shared α) :=
  if rwlock.strong = 1 ∧ rwlock.weak = 0 then .ok ⟨rwlock⟩ else .error rwlock

/-- Source `Shared::into_inner(this)`: returns the raw `Arc<RwLock<T>>`. -/
def Shared.into_inner (this : Shared α) : ArcCell α :=
  this.cell

/-- Source `SharedReadLock::lock(&self)`: `SharedReadGuard(self.0.read().unwrap())`
— panics exactly when the lock is poisoned. -/
def SharedReadLock.lock (self : SharedReadLock α) : LockAcqResult α :=
  if self.cell.poisoned then .panicked else .guard self.cell.value

/-- Source `SharedReadLock::downgrade(&self)`: `WeakReadLock(Arc::downgrade(&self.0))`
— creating a weak reference increments the weak count. -/
def SharedReadLock.downgrade (self : SharedReadLock α) : WeakReadLock α :=
  ⟨{ self.cell with weak := self.cell.weak + 1 }⟩

/-- Source `SharedReadLock::try_upgrade(self)`: `Ok(Shared(self.0))` when
`Arc::strong_count == 1 && Arc::weak_count == 0`, else `Err(self)`. -/
def SharedReadLock.try_upgrade (self : SharedReadLock α) :
    Except (SharedReadLock α) (Shared α) :=
  if self.cell.strong = 1 ∧ self.cell.weak = 0 then .ok ⟨self.cell⟩ else .error self

/-- Source `SharedReadLock::from_inner(rwlock)`: unconditional wrapping. -/
def SharedReadLock.from_inner (rwlock : ArcCell α) : SharedReadLock α :=
  ⟨rwlock⟩

/-- Source `SharedReadLock::try_into_inner(self)`: `Ok(self.0)` when
`Arc::strong_count == 1 && Arc::weak_count == 0`, else `Err(self)`. -/
def SharedReadLock.try_into_inner (self : SharedReadLock α) :
    Except (SharedReadLock α) (ArcCell α) :=
  if self.cell.strong = 1 ∧ self.cell.weak = 0 then .ok self.cell else .error self

/-- Source `Clone for SharedReadLock`: `Self(Arc::clone(&self.0))` — increments the
strong count. -/
def SharedReadLock.clone (self : SharedReadLock α) : SharedReadLock α :=
  ⟨{ self.cell with strong := self.cell.strong + 1 }⟩

/-- Source `WeakReadLock::upgrade(&self)`: `Weak::upgrade(&self.0).map(SharedReadLock)`
— yields `Some` (incrementing the strong count) exactly when at least one
strong reference is still alive, `None` once the value has been dropped. -/
def WeakReadLock.upgrade (self : WeakReadLock α) : Option (SharedReadLock α) :=
  if 1 ≤ self.cell.strong then
    some ⟨{ self.cell with strong := self.cell.strong + 1 }⟩
  else
    none

/-- Dropping the handle a `SharedReadLock` was cloned from (e.g. the original
`Shared` after `get_read_lock`): the strong count observed through the
surviving read handle decreases by one. -/
def dropOtherStrong (self : SharedReadLock α) : SharedReadLock α :=
  ⟨{ self.cell with strong := self.cell.strong - 1 }⟩

/-- Source `Except.isOk`-style discriminator used to compare the success conditions
of the three uniqueness-checked conversions. -/
def exceptIsOk {ε β : Type} : Except ε β → Bool
  | .ok _ => true
  | .error _ => false

/-!
Operational model of handle lifecycles: a system state records, per backing
cell (identified by the `Nat` index of its allocation), how many `Shared`
handles, `SharedReadLock` handles, escaped raw `Arc<RwLock<T>>` values and
`WeakReadLock` handles currently exist, plus the next fresh cell id. Each
handle owns exactly one reference of the corresponding kind, so the strong
count of a cell is the number of `Shared` plus `SharedReadLock` plus raw
`Arc` handles pointing at it, exactly as `Arc::strong_count` reports it.
-/

/-- The number of live handles of each kind, per backing cell, plus a fresh
cell-id supply. -/
structure SysState where
  sharedCt : Nat → Nat
  readCt : Nat → Nat
  rawCt : Nat → Nat
  weakCt : Nat → Nat
  nextCell : Nat

/-- Increment a per-cell count at cell `c`. -/
def bump (f : Nat → Nat) (c : Nat) : Nat → Nat :=
  fun x => if x = c then f x + 1 else f x

/-- Decrement a per-cell count at cell `c`. -/
def drop1 (f : Nat → Nat) (c : Nat) : Nat → Nat :=
  fun x => if x = c then f x - 1 else f x

/-- Source `Arc::strong_count` for cell `c`: every `Shared`, `SharedReadLock` and
escaped raw `Arc` owns one strong reference. -/
def strongCount (st : SysState) (c : Nat) : Nat :=
  st.sharedCt c + st.readCt c + st.rawCt c

/-- Source `Arc::weak_count` for cell `c`: every `WeakReadLock` owns one weak
reference. -/
def weakCount (st : SysState) (c : Nat) : Nat :=
  st.weakCt c

/-- The observable transitions of the handle system. Fallible conversions
only change the state when they succeed (on failure they hand the very same
handle back), so only their success cases appear, guarded by the checks the
source performs. -/
inductive Step : SysState → SysState → Prop where
  /-- Source `Shared::new`: a fresh cell, owned by exactly one new `Shared`. -/
  | newShared (st : SysState) :
      Step st ⟨bump st.sharedCt st.nextCell, st.readCt, st.rawCt, st.weakCt, st.nextCell + 1⟩
  /-- Source `Shared::get_read_lock`: clone the `Arc` into a new `SharedReadLock`. -/
  | get_read_lock (st : SysState) (c : Nat) : 1 ≤ st.sharedCt c →
      Step st ⟨st.sharedCt, bump st.readCt c, st.rawCt, st.weakCt, st.nextCell⟩
  /-- Source `Clone for SharedReadLock`. -/
  | cloneRead (st : SysState) (c : Nat) : 1 ≤ st.readCt c →
      Step st ⟨st.sharedCt, bump st.readCt c, st.rawCt, st.weakCt, st.nextCell⟩
  /-- Source `SharedReadLock::downgrade`: mint a `WeakReadLock`. -/
  | downgrade (st : SysState) (c : Nat) : 1 ≤ st.readCt c →
      Step st ⟨st.sharedCt, st.readCt, st.rawCt, bump st.weakCt c, st.nextCell⟩
  /-- Source `Clone for WeakReadLock`. -/
  | cloneWeak (st : SysState) (c : Nat) : 1 ≤ st.weakCt c →
      Step st ⟨st.sharedCt, st.readCt, st.rawCt, bump st.weakCt c, st.nextCell⟩
  /-- Source `WeakReadLock::upgrade`, success case: possible exactly while a strong
  reference survives; produces a new `SharedReadLock`. -/
  | weakUpgrade (st : SysState) (c : Nat) : 1 ≤ st.weakCt c → 1 ≤ strongCount st c →
      Step st ⟨st.sharedCt, bump st.readCt c, st.rawCt, st.weakCt, st.nextCell⟩
  /-- Dropping a `Shared`. -/
  | dropShared (st : SysState) (c : Nat) : 1 ≤ st.sharedCt c →
      Step st ⟨drop1 st.sharedCt c, st.readCt, st.rawCt, st.weakCt, st.nextCell⟩
  /-- Dropping a `SharedReadLock`. -/
  | dropRead (st : SysState) (c : Nat) : 1 ≤ st.readCt c →
      Step st ⟨st.sharedCt, drop1 st.readCt c, st.rawCt, st.weakCt, st.nextCell⟩
  /-- Dropping an escaped raw `Arc<RwLock<T>>`. -/
  | dropRaw (st : SysState) (c : Nat) : 1 ≤ st.rawCt c →
      Step st ⟨st.sharedCt, st.readCt, drop1 st.rawCt c, st.weakCt, st.nextCell⟩
  /-- Dropping a `WeakReadLock`. -/
  | dropWeak (st : SysState) (c : Nat) : 1 ≤ st.weakCt c →
      Step st ⟨st.sharedCt, st.readCt, st.rawCt, drop1 st.weakCt c, st.nextCell⟩
  /-- Source `Shared::into_inner`: the `Shared` becomes a raw `Arc`. -/
  | into_inner (st : SysState) (c : Nat) : 1 ≤ st.sharedCt c →
      Step st ⟨drop1 st.sharedCt c, st.readCt, bump st.rawCt c, st.weakCt, st.nextCell⟩
  /-- Source `SharedReadLock::from_inner`: a raw `Arc` becomes a `SharedReadLock`,
  unconditionally. -/
  | from_inner (st : SysState) (c : Nat) : 1 ≤ st.rawCt c →
      Step st ⟨st.sharedCt, bump st.readCt c, drop1 st.rawCt c, st.weakCt, st.nextCell⟩
  /-- Source `Shared::try_from_inner`, success case: guarded by
  `strong_count == 1 && weak_count == 0`. -/
  | try_from_inner_ok (st : SysState) (c : Nat) :
      1 ≤ st.rawCt c → strongCount st c = 1 → weakCount st c = 0 →
      Step st ⟨bump st.sharedCt c, st.readCt, drop1 st.rawCt c, st.weakCt, st.nextCell⟩
  /-- Source `SharedReadLock::try_upgrade`, success case: same guard. -/
  | try_upgrade_ok (st : SysState) (c : Nat) :
      1 ≤ st.readCt c → strongCount st c = 1 → weakCount st c = 0 →
      Step st ⟨bump st.sharedCt c, drop1 st.readCt c, st.rawCt, st.weakCt, st.nextCell⟩
  /-- Source `SharedReadLock::try_into_inner`, success case: same guard. -/
  | try_into_inner_ok (st : SysState) (c : Nat) :
      1 ≤ st.readCt c → strongCount st c = 1 → weakCount st c = 0 →
      Step st ⟨st.sharedCt, drop1 st.readCt c, bump st.rawCt c, st.weakCt, st.nextCell⟩
  /-- Source `Shared::unwrap`, success case: `Arc::try_unwrap` requires the strong
  count to be 1; the value is moved out and the strong reference is gone. -/
  | unwrap_ok (st : SysState) (c : Nat) :
      1 ≤ st.sharedCt c → strongCount st c = 1 →
      Step st ⟨drop1 st.sharedCt c, st.readCt, st.rawCt, st.weakCt, st.nextCell⟩

/-- The empty initial state: no handles, no cells allocated yet. -/
def initState : SysState :=
  ⟨fun _ => 0, fun _ => 0, fun _ => 0, fun _ => 0, 0⟩

/-- States reachable from the empty state by handle operations. -/
inductive Reachable : SysState → Prop where
  | init : Reachable initState
  | step {st st' : SysState} : Reachable st → Step st st' → Reachable st'

/-- The inductive invariant: every cell has at most one `Shared` handle, and
unallocated cell ids carry no handles at all. -/
def GoodState (st : SysState) : Prop :=
  (∀ c, st.sharedCt c ≤ 1) ∧
  (∀ c, st.nextCell ≤ c →
    st.sharedCt c = 0 ∧ st.readCt c = 0 ∧ st.rawCt c = 0 ∧ st.weakCt c = 0)

/-- State after `Shared::new`: one `Shared` handle on cell 0. -/
def demoSt1 : SysState :=
  ⟨bump initState.sharedCt initState.nextCell, initState.readCt, initState.rawCt,
    initState.weakCt, initState.nextCell + 1⟩

/-- State after `Shared::new` then `get_read_lock`: a `Shared` and a
`SharedReadLock` on cell 0. -/
def demoSt2 : SysState :=
  ⟨demoSt1.sharedCt, bump demoSt1.readCt 0, demoSt1.rawCt, demoSt1.weakCt, demoSt1.nextCell⟩

theorem step_preserves_good {st st' : SysState} (hstep : Step st st')
    (hg : GoodState st) : GoodState st' := by
  obtain ⟨h1, h2⟩ := hg
  cases hstep with
  | newShared =>
      refine ⟨fun x => ?_, fun x hx => ?_⟩
      · simp only [bump]
        split
        · rename_i hx
          have hfr := h2 x (le_of_eq hx.symm)
          omega
        · exact h1 x
      · have hx9 : st.nextCell + 1 ≤ x := hx
        have hfr := h2 x (by omega)
        simp only [bump]
        split
        · omega
        · exact hfr
  | get_read_lock c hc =>
      have hcn : c < st.nextCell := by
        by_contra hn
        have hfr := h2 c (by omega)
        omega
      refine ⟨h1, fun x hx => ?_⟩
      have hx9 : st.nextCell ≤ x := hx
      have hfr := h2 x hx9
      simp only [bump]
      split
      · omega
      · exact hfr
  | cloneRead c hc =>
      have hcn : c < st.nextCell := by
        by_contra hn
        have hfr := h2 c (by omega)
        omega
      refine ⟨h1, fun x hx => ?_⟩
      have hx9 : st.nextCell ≤ x := hx
      have hfr := h2 x hx9
      simp only [bump]
      split
      · omega
      · exact hfr
  | downgrade c hc =>
      have hcn : c < st.nextCell := by
        by_contra hn
        have hfr := h2 c (by omega)
        omega
      refine ⟨h1, fun x hx => ?_⟩
      have hx9 : st.nextCell ≤ x := hx
      have hfr := h2 x hx9
      simp only [bump]
      split
      · omega
      · exact hfr
  | cloneWeak c hc =>
      have hcn : c < st.nextCell := by
        by_contra hn
        have hfr := h2 c (by omega)
        omega
      refine ⟨h1, fun x hx => ?_⟩
      have hx9 : st.nextCell ≤ x := hx
      have hfr := h2 x hx9
      simp only [bump]
      split
      · omega
      · exact hfr
  | weakUpgrade c hc hs =>
      have hcn : c < st.nextCell := by
        by_contra hn
        have hfr := h2 c (by omega)
        omega
      refine ⟨h1, fun x hx => ?_⟩
      have hx9 : st.nextCell ≤ x := hx
      have hfr := h2 x hx9
      simp only [bump]
      split
      · omega
      · exact hfr
  | dropShared c hc =>
      refine ⟨fun x => ?_, fun x hx => ?_⟩
      · have := h1 x
        simp only [drop1]
        split <;> omega
      · have hx9 : st.nextCell ≤ x := hx
        have hfr := h2 x hx9
        simp only [drop1]
        split
        · omega
        · exact hfr
  | dropRead c hc =>
      refine ⟨h1, fun x hx => ?_⟩
      have hx9 : st.nextCell ≤ x := hx
      have hfr := h2 x hx9
      simp only [drop1]
      split
      · omega
      · exact hfr
  | dropRaw c hc =>
      refine ⟨h1, fun x hx => ?_⟩
      have hx9 : st.nextCell ≤ x := hx
      have hfr := h2 x hx9
      simp only [drop1]
      split
      · omega
      · exact hfr
  | dropWeak c hc =>
      refine ⟨h1, fun x hx => ?_⟩
      have hx9 : st.nextCell ≤ x := hx
      have hfr := h2 x hx9
      simp only [drop1]
      split
      · omega
      · exact hfr
  | into_inner c hc =>
      have hcn : c < st.nextCell := by
        by_contra hn
        have hfr := h2 c (by omega)
        omega
      refine ⟨fun x => ?_, fun x hx => ?_⟩
      · have := h1 x
        simp only [drop1]
        split <;> omega
      · have hx9 : st.nextCell ≤ x := hx
        have hfr := h2 x hx9
        simp only [bump, drop1]
        refine ⟨?_, hfr.2.1, ?_, hfr.2.2.2⟩
        · split
          · omega
          · exact hfr.1
        · split
          · omega
          · exact hfr.2.2.1
  | from_inner c hc =>
      have hcn : c < st.nextCell := by
        by_contra hn
        have hfr := h2 c (by omega)
        omega
      refine ⟨h1, fun x hx => ?_⟩
      have hx9 : st.nextCell ≤ x := hx
      have hfr := h2 x hx9
      simp only [bump, drop1]
      refine ⟨hfr.1, ?_, ?_, hfr.2.2.2⟩
      · split
        · omega
        · exact hfr.2.1
      · split
        · omega
        · exact hfr.2.2.1
  | try_from_inner_ok c hc hs hw =>
      have hcn : c < st.nextCell := by
        by_contra hn
        have hfr := h2 c (by omega)
        omega
      simp only [strongCount] at hs
      refine ⟨fun x => ?_, fun x hx => ?_⟩
      · have := h1 x
        simp only [bump]
        split
        · rename_i he
          subst he
          omega
        · exact this
      · have hx9 : st.nextCell ≤ x := hx
        have hfr := h2 x hx9
        simp only [bump, drop1]
        refine ⟨?_, hfr.2.1, ?_, hfr.2.2.2⟩
        · split
          · omega
          · exact hfr.1
        · split
          · omega
          · exact hfr.2.2.1
  | try_upgrade_ok c hc hs hw =>
      have hcn : c < st.nextCell := by
        by_contra hn
        have hfr := h2 c (by omega)
        omega
      simp only [strongCount] at hs
      refine ⟨fun x => ?_, fun x hx => ?_⟩
      · have := h1 x
        simp only [bump]
        split
        · rename_i he
          subst he
          omega
        · exact this
      · have hx9 : st.nextCell ≤ x := hx
        have hfr := h2 x hx9
        simp only [bump, drop1]
        refine ⟨?_, ?_, hfr.2.2.1, hfr.2.2.2⟩
        · split
          · omega
          · exact hfr.1
        · split
          · omega
          · exact hfr.2.1
  | try_into_inner_ok c hc hs hw =>
      have hcn : c < st.nextCell := by
        by_contra hn
        have hfr := h2 c (by omega)
        omega
      refine ⟨h1, fun x hx => ?_⟩
      have hx9 : st.nextCell ≤ x := hx
      have hfr := h2 x hx9
      simp only [bump, drop1]
      refine ⟨hfr.1, ?_, ?_, hfr.2.2.2⟩
      · split
        · omega
        · exact hfr.2.1
      · split
        · omega
        · exact hfr.2.2.1
  | unwrap_ok c hc hs =>
      refine ⟨fun x => ?_, fun x hx => ?_⟩
      · have := h1 x
        simp only [drop1]
        split <;> omega
      · have hx9 : st.nextCell ≤ x := hx
        have hfr := h2 x hx9
        simp only [drop1]
        split
        · omega
        · exact hfr

theorem reachable_good {st : SysState} (h : Reachable st) : GoodState st := by
  induction h with
  | init =>
      exact ⟨fun _ => Nat.zero_le 1, fun _ _ => ⟨rfl, rfl, rfl, rfl⟩⟩
  | step _ hstep ih =>
      exact step_preserves_good hstep ih

/-- C1: for every sequence of handle operations starting from `Shared::new`
(clones, `get_read_lock`, `downgrade`, weak `upgrade`, the `try_*`
conversions, plus the escape hatches and drops), at no observable instant do
two `Shared` handles for the same backing cell exist: in every reachable
system state each cell carries at most one `Shared`. -/
theorem c1_shared_exclusivity (st : SysState) (h : Reachable st) (c : Nat) :
    st.sharedCt c ≤ 1 :=
  (reachable_good h).1 c

theorem c1_shared_exclusivity_witness :
    Reachable demoSt2 ∧ demoSt2.sharedCt 0 ≤ 1 := by
  have ha : Reachable demoSt1 := Reachable.step Reachable.init (Step.newShared initState)
  have hb : Reachable demoSt2 :=
    Reachable.step ha (Step.get_read_lock demoSt1 0 (by decide))
  exact ⟨hb, c1_shared_exclusivity demoSt2 hb 0⟩

/-- C2: `Shared::try_from_inner(cell)` returns `Ok` wrapping the very same
cell exactly when the cell's strong count is 1 and its weak count is 0;
otherwise it returns `Err` carrying the same cell unchanged. -/
theorem c2_try_from_inner_characterisation {α : Type} (rwlock : ArcCell α) :
    (Shared.try_from_inner rwlock = .ok ⟨rwlock⟩ ↔
      rwlock.strong = 1 ∧ rwlock.weak = 0) ∧
    (Shared.try_from_inner rwlock = .error rwlock ↔
      ¬(rwlock.strong = 1 ∧ rwlock.weak = 0)) := by
  unfold Shared.try_from_inner
  split
  · rename_i h
    simp [h]
  · rename_i h
    simp [h]

/-- C3: `try_upgrade`, `try_into_inner` and `try_from_inner` succeed under
exactly the same condition on the backing cell — sole strong reference and
no weak references — so on every cell the three checks agree. -/
theorem c3_uniqueness_checks_agree {α : Type} (cell : ArcCell α) :
    exceptIsOk (SharedReadLock.try_upgrade (⟨cell⟩ : SharedReadLock α)) =
      exceptIsOk (Shared.try_from_inner cell) ∧
    exceptIsOk (SharedReadLock.try_into_inner (⟨cell⟩ : SharedReadLock α)) =
      exceptIsOk (Shared.try_from_inner cell) ∧
    (exceptIsOk (Shared.try_from_inner cell) = true ↔
      cell.strong = 1 ∧ cell.weak = 0) := by
  unfold SharedReadLock.try_upgrade SharedReadLock.try_into_inner Shared.try_from_inner
  by_cases h : cell.strong = 1 ∧ cell.weak = 0
  · simp only [h, if_pos]
    simp [exceptIsOk, h]
  · rw [if_neg h, if_neg h, if_neg h]
    simp [exceptIsOk, h]

/-- C4 counterexample: with the original `Shared` still alive, the read
handle minted by `get_read_lock` observes strong count 2, so an immediate
`try_upgrade` returns `Err` (the claim says it always returns `Ok`). -/
theorem c4_counterexample :
    SharedReadLock.try_upgrade (Shared.get_read_lock (Shared.new (0 : Nat))) =
      .error (Shared.get_read_lock (Shared.new (0 : Nat))) ∧
    exceptIsOk (SharedReadLock.try_upgrade
      (Shared.get_read_lock (Shared.new (0 : Nat)))) = false :=
  ⟨rfl, rfl⟩

/-- C4 amended: once the original `Shared` has been dropped, so that the
sole resulting read handle holds the only strong reference (strong count 1,
weak count 0), `try_upgrade` returns `Ok` with a `Shared` wrapping the same
backing cell. -/
theorem c4_amended_upgrade_after_drop {α : Type} (r : SharedReadLock α)
    (h1 : r.cell.strong = 1) (h2 : r.cell.weak = 0) :
    SharedReadLock.try_upgrade r = .ok ⟨r.cell⟩ := by
  unfold SharedReadLock.try_upgrade
  rw [if_pos ⟨h1, h2⟩]

theorem c4_amended_witness :
    (dropOtherStrong (Shared.get_read_lock (Shared.new (7 : Nat)))).cell.strong = 1 ∧
    (dropOtherStrong (Shared.get_read_lock (Shared.new (7 : Nat)))).cell.weak = 0 ∧
    SharedReadLock.try_upgrade (dropOtherStrong (Shared.get_read_lock (Shared.new (7 : Nat)))) =
      .ok ⟨(dropOtherStrong (Shared.get_read_lock (Shared.new (7 : Nat)))).cell⟩ :=
  ⟨rfl, rfl, c4_amended_upgrade_after_drop _ rfl rfl⟩

/-- C5: the round-trip `Shared::new(v)` → `into_inner` → `try_from_inner`
returns `Ok` with a `Shared` observably equal to the original: the same
backing cell, containing the same value `v`. -/
theorem c5_new_into_inner_round_trip {α : Type} (v : α) :
    Shared.try_from_inner (Shared.into_inner (Shared.new v)) = .ok (Shared.new v) ∧
    (Shared.new v).cell.value = v :=
  ⟨rfl, rfl⟩

/-- C6: `Shared::unwrap` returns the inner value only when no other strong
references exist; on failure it returns `Err` carrying the very same
`Shared` (cell and counts untouched). In particular, with one outstanding
`SharedReadLock` (strong count 2) it fails with the original handle, and
after that read lock is dropped (strong count 1, lock unpoisoned) it
succeeds with the wrapped value. -/
theorem c6_unwrap_requires_sole_strong {α : Type} (v : α) (s : Shared α)
    (h : s.cell.strong ≠ 1) :
    Shared.unwrap s = .err s ∧
    Shared.unwrap (⟨⟨v, 2, 0, false⟩⟩ : Shared α) = .err ⟨⟨v, 2, 0, false⟩⟩ ∧
    Shared.unwrap (⟨⟨v, 1, 0, false⟩⟩ : Shared α) = .ok v := by
  refine ⟨?_, rfl, rfl⟩
  unfold Shared.unwrap
  rw [if_neg h]

theorem c6_unwrap_witness :
    (⟨⟨5, 2, 0, false⟩⟩ : Shared Nat).cell.strong ≠ 1 ∧
    (Shared.unwrap (⟨⟨5, 2, 0, false⟩⟩ : Shared Nat) = .err ⟨⟨5, 2, 0, false⟩⟩ ∧
     Shared.unwrap (⟨⟨5, 2, 0, false⟩⟩ : Shared Nat) = .err ⟨⟨5, 2, 0, false⟩⟩ ∧
     Shared.unwrap (⟨⟨5, 1, 0, false⟩⟩ : Shared Nat) = .ok 5) :=
  ⟨by decide, c6_unwrap_requires_sole_strong 5 ⟨⟨5, 2, 0, false⟩⟩ (by decide)⟩

/-- C7: `WeakReadLock::upgrade` yields `some` exactly when at least one
strong reference is still alive at the attempt; once the cell is gone it
yields `none` (the expected "absent" outcome); and `downgrade` followed by
`upgrade` — with the strong count at the attempt instant being any `sc` —
succeeds exactly when a strong reference survives. -/
theorem c7_weak_upgrade_iff_strong_alive {α : Type} (w : WeakReadLock α)
    (r : SharedReadLock α) (sc : Nat) :
    ((WeakReadLock.upgrade w).isSome = true ↔ 1 ≤ w.cell.strong) ∧
    (WeakReadLock.upgrade w = none ↔ w.cell.strong = 0) ∧
    ((WeakReadLock.upgrade
        (⟨{ (SharedReadLock.downgrade r).cell with strong := sc }⟩ : WeakReadLock α)).isSome
      = true ↔ 1 ≤ sc) := by
  unfold WeakReadLock.upgrade SharedReadLock.downgrade
  refine ⟨?_, ?_, ?_⟩ <;> split <;> simp_all
  omega

/-- C8: in the blocking backend, `Shared::get` panics exactly when the lock
around the inner value is poisoned, while `Shared::try_get` returns an error
that distinguishes the poisoned case yet still carries the valid reference
to the inner value; when the lock is not poisoned both hand back the inner
reference. -/
theorem c8_get_poisoning {α : Type} (s : Shared α) :
    (Shared.get s = .panicked ↔ s.cell.poisoned = true) ∧
    (Shared.try_get s = .error s.cell.value ↔ s.cell.poisoned = true) ∧
    (Shared.get s = .ok s.cell.value ↔ s.cell.poisoned = false) ∧
    (Shared.try_get s = .ok s.cell.value ↔ s.cell.poisoned = false) := by
  unfold Shared.get Shared.try_get
  cases hp : s.cell.poisoned <;> simp [hp]

/-- C9: `Shared::unwrap` ignores weak references: with strong count exactly
1 it succeeds for any number of outstanding `WeakReadLock`s and its result
never depends on the weak count, while a single live weak reference makes
`try_upgrade`, `try_from_inner` and `try_into_inner` all fail. -/
theorem c9_unwrap_ignores_weak {α : Type} (v : α) (wk : Nat) (cell : ArcCell α)
    (hs : cell.strong = 1) (hw : 1 ≤ cell.weak) :
    Shared.unwrap (⟨⟨v, 1, wk, false⟩⟩ : Shared α) = .ok v ∧
    Shared.unwrap ⟨{ cell with weak := wk }⟩ = Shared.unwrap ⟨cell⟩ ∧
    SharedReadLock.try_upgrade (⟨cell⟩ : SharedReadLock α) = .error ⟨cell⟩ ∧
    Shared.try_from_inner cell = .error cell ∧
    SharedReadLock.try_into_inner (⟨cell⟩ : SharedReadLock α) = .error ⟨cell⟩ := by
  have hno : ¬(cell.strong = 1 ∧ cell.weak = 0) := by
    rintro ⟨-, h0⟩
    omega
  refine ⟨rfl, ?_, ?_, ?_, ?_⟩
  · unfold Shared.unwrap
    simp [hs]
  · unfold SharedReadLock.try_upgrade
    rw [if_neg hno]
  · unfold Shared.try_from_inner
    rw [if_neg hno]
  · unfold SharedReadLock.try_into_inner
    rw [if_neg hno]

theorem c9_unwrap_ignores_weak_witness :
    (⟨9, 1, 2, false⟩ : ArcCell Nat).strong = 1 ∧
    1 ≤ (⟨9, 1, 2, false⟩ : ArcCell Nat).weak ∧
    (Shared.unwrap (⟨⟨3, 1, 5, false⟩⟩ : Shared Nat) = .ok 3 ∧
     Shared.unwrap (⟨⟨9, 1, 5, false⟩⟩ : Shared Nat) =
       Shared.unwrap (⟨⟨9, 1, 2, false⟩⟩ : Shared Nat) ∧
     SharedReadLock.try_upgrade (⟨⟨9, 1, 2, false⟩⟩ : SharedReadLock Nat) =
       .error ⟨⟨9, 1, 2, false⟩⟩ ∧
     Shared.try_from_inner (⟨9, 1, 2, false⟩ : ArcCell Nat) = .error ⟨9, 1, 2, false⟩ ∧
     SharedReadLock.try_into_inner (⟨⟨9, 1, 2, false⟩⟩ : SharedReadLock Nat) =
       .error ⟨⟨9, 1, 2, false⟩⟩) :=
  ⟨rfl, by decide, c9_unwrap_ignores_weak 3 5 ⟨9, 1, 2, false⟩ (by decide) (by decide)⟩

/-- C10: in the blocking backend poisoning always propagates: `unwrap` of a
sole-strong `Shared` panics when the lock is poisoned (there is no way to
configure this away), and `Shared::lock` and `SharedReadLock::lock` panic
whenever the lock is poisoned. -/
theorem c10_poison_propagation {α : Type} (s : Shared α) (r : SharedReadLock α)
    (hs : s.cell.strong = 1) (hp : s.cell.poisoned = true)
    (hrp : r.cell.poisoned = true) :
    Shared.unwrap s = .panicked ∧
    Shared.lock s = .panicked ∧
    SharedReadLock.lock r = .panicked := by
  unfold Shared.unwrap Shared.lock SharedReadLock.lock
  simp [hs, hp, hrp]

theorem c10_poison_propagation_witness :
    (⟨⟨0, 1, 0, true⟩⟩ : Shared Nat).cell.strong = 1 ∧
    (⟨⟨0, 1, 0, true⟩⟩ : Shared Nat).cell.poisoned = true ∧
    (⟨⟨0, 1, 0, true⟩⟩ : SharedReadLock Nat).cell.poisoned = true ∧
    (Shared.unwrap (⟨⟨0, 1, 0, true⟩⟩ : Shared Nat) = .panicked ∧
     Shared.lock (⟨⟨0, 1, 0, true⟩⟩ : Shared Nat) = .panicked ∧
     SharedReadLock.lock (⟨⟨0, 1, 0, true⟩⟩ : SharedReadLock Nat) = .panicked) :=
  ⟨rfl, rfl, rfl, c10_poison_propagation ⟨⟨0, 1, 0, true⟩⟩ ⟨⟨0, 1, 0, true⟩⟩ rfl rfl rfl⟩

end Readlock
